import Mathlib

/-!
# Verification of the planloop agent workflow coordinator

A shallow embedding of the planloop core (session state model, scheduler,
update pipeline, signal operations, deadlock detector, lock queue cleanup)
translated from the Python sources under `src/planloop/`, together with
theorems settling the specification claims about those components.

Conventions of the embedding:
* Python `datetime.utcnow()` is threaded as an explicit `tnow : Nat` argument
  (wall-clock ticks); timestamps are `Nat`.
* Pydantic models become structures; enum classes become inductive types with
  the same member names.
* Python exceptions become `Except` / explicit error sums; a CLI command is a
  function from the on-disk session state (plus arguments) to a result
  together with the on-disk state after the call.  The session files written
  by `save_session_state` (`state.json`, `PLAN.md`, the registry entry) are
  all functions of the `SessionState` value, so the on-disk contents are
  modeled by that value.
-/

namespace Planloop

/-- Task types, from `state.py` `TaskType`. -/
inductive TaskType
  | TEST
  | FIX
  | REFACTOR
  | FEATURE
  | DOC
  | CHORE
  | DESIGN
  | INVESTIGATE
deriving DecidableEq, Repr

/-- Task statuses, from `state.py` `TaskStatus`. -/
inductive TaskStatus
  | TODO
  | IN_PROGRESS
  | DONE
  | BLOCKED
  | SKIPPED
  | OUT_OF_SCOPE
  | CANCELLED
  | FAILED
  | WAITING
deriving DecidableEq, Repr

/-- A task, from `state.py` `Task`. -/
structure Task where
  id : Nat
  title : String
  type : TaskType
  status : TaskStatus := TaskStatus.TODO
  depends_on : List Nat := []
  commit_sha : Option String := none
  last_updated_at : Option Nat := none
deriving DecidableEq, Repr

/-- Signal levels, from `state.py` `SignalLevel`. -/
inductive SignalLevel
  | BLOCKER
  | HIGH
  | INFO
deriving DecidableEq, Repr

/-- Signal types, from `state.py` `SignalType`. -/
inductive SignalType
  | CI
  | LINT
  | BENCH
  | SYSTEM
  | OTHER
deriving DecidableEq, Repr

/-- A value of the free-form `extra` mapping on a signal. -/
inductive ExtraVal
  | str (s : String)
  | num (n : Nat)
  | null
deriving DecidableEq, Repr

/-- A signal, from `state.py` `Signal`.  The Python field `open` is a Lean
keyword, hence the quoted field name. -/
structure Signal where
  id : String
  type : SignalType
  kind : String
  level : SignalLevel
  «open» : Bool := true
  title : String
  message : String
  link : Option String := none
  extra : List (String × ExtraVal) := []
  attempts : Nat := 0
deriving DecidableEq, Repr

/-- Now reasons, from `state.py` `NowReason`. -/
inductive NowReason
  | CI_BLOCKER
  | TASK
  | COMPLETED
  | IDLE
  | WAITING_ON_LOCK
  | DEADLOCKED
  | ESCALATED
deriving DecidableEq, Repr

/-- The derived next-action descriptor, from `state.py` `Now`. -/
structure Now where
  reason : NowReason
  task_id : Option Nat := none
  signal_id : Option String := none
deriving DecidableEq, Repr

/-- Artifact types, from `state.py` `ArtifactType`. -/
inductive ArtifactType
  | DIFF
  | LOG
  | FILE
  | URL
  | OTHER
deriving DecidableEq, Repr

/-- An artifact, from `state.py` `Artifact`. -/
structure Artifact where
  type : ArtifactType
  path : Option String := none
  summary : String
  commit_sha : Option String := none
  metadata : List (String × ExtraVal) := []
deriving DecidableEq, Repr

/-- Environment fingerprint, from `state.py` `Environment`. -/
structure Environment where
  os : String
  python : Option String := none
  xcode : Option String := none
  node : Option String := none
deriving DecidableEq, Repr

/-- Prompt metadata, from `state.py` `PromptMetadata`. -/
structure PromptMetadata where
  set : String
  goal_version : Option String := none
  handshake_version : Option String := none
  summary_version : Option String := none
deriving DecidableEq, Repr

/-- The root session aggregate, from `state.py` `SessionState`. -/
structure SessionState where
  schema_version : Nat := 1
  version : Nat := 1
  session : String
  name : String
  title : String
  purpose : String
  created_at : Nat
  last_updated_at : Nat
  project_root : String
  branch : Option String := none
  prompts : PromptMetadata
  environment : Environment
  tasks : List Task := []
  signals : List Signal := []
  next_steps : List String := []
  context_notes : List String := []
  artifacts : List Artifact := []
  now : Now
  done : Bool := false
  final_summary : Option String := none
deriving DecidableEq, Repr

/-- Embeds `_task_done` of `SessionState` (`state.py` lines 168-172): walks the task list
and returns, for the first task with the given id, whether its status is
`DONE`; `False` when no task has that id. -/
def SessionState.task_done (s : SessionState) (task_id : Nat) : Bool :=
  match s.tasks.find? (fun t => t.id == task_id) with
  | some t => t.status == TaskStatus.DONE
  | none => false

/-- Embeds `compute_now` of `SessionState` (`state.py` lines 139-166).  The Python builds
the full filtered lists and indexes `[0]`; `List.find?` returns exactly the
head of the filtered list (proved below as `find?_eq_filter_head?`). -/
def SessionState.compute_now (s : SessionState) : Now :=
  match s.signals.find? (fun sg => sg.«open» && sg.level == SignalLevel.BLOCKER) with
  | some b => { reason := NowReason.CI_BLOCKER, signal_id := some b.id }
  | none =>
  match s.tasks.find? (fun t => t.status == TaskStatus.IN_PROGRESS) with
  | some t => { reason := NowReason.TASK, task_id := some t.id }
  | none =>
  match s.tasks.find?
      (fun t => t.status == TaskStatus.TODO && t.depends_on.all (fun d => s.task_done d)) with
  | some t => { reason := NowReason.TASK, task_id := some t.id }
  | none =>
  if !s.tasks.isEmpty && s.tasks.all (fun t =>
      t.status == TaskStatus.DONE || t.status == TaskStatus.OUT_OF_SCOPE ||
      t.status == TaskStatus.SKIPPED) then
    { reason := NowReason.COMPLETED }
  else
    { reason := NowReason.IDLE }

/-- The scheduler as worded by the specification claim: the first open
`blocker` signal in insertion order wins; else the first `IN_PROGRESS` task in
list order; else the first `TODO` task all of whose `depends_on` targets have
status `DONE` (a dependency target is the first task carrying that id; a
missing target is not `DONE`); else `completed` when the task list is
non-empty and every status is in DONE / OUT_OF_SCOPE / SKIPPED; else `idle`.
Written purely from the claim text, with first-match expressed as the head of
the corresponding filtered list. -/
def compute_now_spec (s : SessionState) : Now :=
  match (s.signals.filter (fun sg => sg.«open» && sg.level == SignalLevel.BLOCKER)).head? with
  | some b => { reason := NowReason.CI_BLOCKER, signal_id := some b.id }
  | none =>
  match (s.tasks.filter (fun t => t.status == TaskStatus.IN_PROGRESS)).head? with
  | some t => { reason := NowReason.TASK, task_id := some t.id }
  | none =>
  match (s.tasks.filter (fun t => t.status == TaskStatus.TODO &&
      t.depends_on.all (fun d =>
        match (s.tasks.filter (fun u => u.id == d)).head? with
        | some target => target.status == TaskStatus.DONE
        | none => false))).head? with
  | some t => { reason := NowReason.TASK, task_id := some t.id }
  | none =>
  if !s.tasks.isEmpty && s.tasks.all (fun t =>
      t.status == TaskStatus.DONE || t.status == TaskStatus.OUT_OF_SCOPE ||
      t.status == TaskStatus.SKIPPED) then
    { reason := NowReason.COMPLETED }
  else
    { reason := NowReason.IDLE }

/-! ## State validator (`state.py` lines 175-241) -/

/-- One violation reported by the validator; the Python collects message
strings, modeled here as structured values. -/
inductive StateError
  | duplicateTaskId (id : Nat)
  | unknownDependency (taskId dep : Nat)
  | selfDependency (taskId : Nat)
  | circularDependency
  | nowOutOfSync
deriving DecidableEq, Repr

/-- Embeds `_check_unique_task_ids` (`state.py` lines 179-186): walk the list with a
`seen` set, reporting each id already seen. -/
def check_unique_task_ids_aux : List Nat → List Task → List StateError
  | _, [] => []
  | seen, t :: ts =>
    (if seen.contains t.id then [StateError.duplicateTaskId t.id] else []) ++
      check_unique_task_ids_aux (t.id :: seen) ts

def check_unique_task_ids (tasks : List Task) : List StateError :=
  check_unique_task_ids_aux [] tasks

/-- Embeds `_check_dependencies` (`state.py` lines 189-198): for each dependency
edge, report a missing target and a self-loop. -/
def check_dependencies_edges (valid_ids : List Nat) (t : Task) : List Nat → List StateError
  | [] => []
  | dep :: rest =>
    ((if valid_ids.contains dep then [] else [StateError.unknownDependency t.id dep]) ++
      (if dep == t.id then [StateError.selfDependency t.id] else [])) ++
      check_dependencies_edges valid_ids t rest

def check_dependencies_aux (valid_ids : List Nat) : List Task → List StateError
  | [] => []
  | t :: ts =>
    check_dependencies_edges valid_ids t t.depends_on ++ check_dependencies_aux valid_ids ts

def check_dependencies (tasks : List Task) : List StateError :=
  check_dependencies_aux (tasks.map (fun t => t.id)) tasks

/-- The dependency graph used by `_detect_cycles`: task id to its
`depends_on` list (a Python dict comprehension keeps the last binding per
key). -/
def cycle_graph_get (tasks : List Task) (node : Nat) : Option (List Nat) :=
  ((tasks.filter (fun t => t.id == node)).getLast?).map (fun t => t.depends_on)

/-- The recursive `dfs` of `_detect_cycles` (`state.py` lines 207-218), with
an explicit fuel argument so the recursion is structural (on fuel).  The
Python recursion depth is bounded by the number of graph nodes (every frame
inserts a fresh node into `visiting`), so fuel `tasks.length + 1` never runs
out on the real inputs; the fuel-exhausted branch is unreachable and reports
no cycle.  The `for dep in graph.get(node, [])` loop is a fold that, like the
Python `return True`, keeps the first cycle result once found.  Returns the
cycle flag together with the updated `visiting` / `visited` sets. -/
def detect_cycles_dfs (tasks : List Task) :
    Nat → Nat → List Nat → List Nat → Bool × List Nat × List Nat
  | 0, _, visiting, visited => (false, visiting, visited)
  | fuel + 1, node, visiting, visited =>
    if visiting.contains node then (true, visiting, visited)
    else if visited.contains node then (false, visiting, visited)
    else
      let deps := (cycle_graph_get tasks node).getD []
      let r := deps.foldl
        (fun acc dep =>
          match acc with
          | (true, v1, v2) => (true, v1, v2)
          | (false, v1, v2) =>
            if (tasks.filter (fun t => t.id == dep)).isEmpty then (false, v1, v2)
            else detect_cycles_dfs tasks fuel dep v1 v2)
        (false, node :: visiting, visited)
      match r with
      | (true, v1, v2) => (true, v1, v2)
      | (false, v1, v2) => (false, v1.erase node, node :: v2)

/-- Embeds `_detect_cycles` (`state.py` lines 201-225): run `dfs` from every node in
key order, appending a single `Circular dependency detected` error and
stopping at the first cycle found. -/
def detect_cycles_nodes (tasks : List Task) :
    List Nat → List Nat → List Nat → List StateError
  | [], _, _ => []
  | node :: rest, visiting, visited =>
    match detect_cycles_dfs tasks (tasks.length + 1) node visiting visited with
    | (true, _, _) => [StateError.circularDependency]
    | (false, visiting, visited) => detect_cycles_nodes tasks rest visiting visited

def detect_cycles (tasks : List Task) : List StateError :=
  detect_cycles_nodes tasks ((tasks.map (fun t => t.id)).eraseDups) [] []

/-- Embeds `validate_state` (`state.py` lines 228-240): collect all violations,
including the stored-vs-computed `now` comparison, and fail when any were
found. -/
def validate_state_errors (s : SessionState) : List StateError :=
  check_unique_task_ids s.tasks ++ check_dependencies s.tasks ++ detect_cycles s.tasks ++
    (if s.now = s.compute_now then [] else [StateError.nowOutOfSync])

def validate_state (s : SessionState) : Except (List StateError) Unit :=
  if validate_state_errors s = [] then Except.ok () else Except.error (validate_state_errors s)

/-! ## Update payload models (`update_payload.py`) -/

/-- Embeds `TaskStatusPatch`: the status-only patch channel; its `new_title` field
can retitle the task it targets. -/
structure TaskStatusPatch where
  id : Nat
  status : Option TaskStatus := none
  new_title : Option String := none
deriving DecidableEq, Repr

/-- Embeds `AddTaskInput`. -/
structure AddTaskInput where
  title : String
  type : Option TaskType := none
  depends_on : List Nat := []
  implementation_notes : Option String := none
deriving DecidableEq, Repr

/-- Embeds `UpdateTaskInput`: the full-edit channel. -/
structure UpdateTaskInput where
  id : Nat
  new_title : Option String := none
  new_type : Option TaskType := none
  status : Option TaskStatus := none
deriving DecidableEq, Repr

/-- Embeds `AgentInfo`. -/
structure AgentInfo where
  name : Option String := none
  version : Option String := none
  contact : Option String := none
deriving DecidableEq, Repr

/-- Embeds `UpdatePayload` (`update_payload.py` lines 37-47).  The model declares no
`done` field: pydantic's default `extra="ignore"` silently drops a `done` key
from the raw JSON object. -/
structure UpdatePayload where
  session : String
  last_seen_version : Option String := none
  tasks : List TaskStatusPatch := []
  add_tasks : List AddTaskInput := []
  update_tasks : List UpdateTaskInput := []
  context_notes : List String := []
  next_steps : List String := []
  artifacts : List Artifact := []
  agent : Option AgentInfo := none
  final_summary : Option String := none
deriving DecidableEq, Repr

/-- A raw JSON update payload after `UpdatePayload.model_validate`: the parsed
recognized fields plus the list of top-level keys that were present in the
JSON object (pydantic keeps no record of the dropped extras, but the CLI's
strict gate reads `raw_payload.keys()`, so the keys are carried alongside). -/
structure RawPayload where
  payload : UpdatePayload
  keys : List String
deriving DecidableEq, Repr

/-! ## Update pipeline (`update.py`) -/

/-- Error kinds raised as `UpdateError` by `update.py` and `cli.py`. -/
inductive UpdateError
  | sessionMismatch
  | versionMismatch
  | unknownTaskId (id : Nat)
  | planEditBlocked
  | unknownFields (fields : List String)
deriving DecidableEq, Repr

/-- Embeds `_apply_task_patch` (`update.py` lines 14-19). -/
def apply_task_patch (tnow : Nat) (patch : TaskStatusPatch) (task : Task) : Task :=
  let task := match patch.status with
    | some st => { task with status := st }
    | none => task
  let task := match patch.new_title with
    | some ti => { task with title := ti }
    | none => task
  { task with last_updated_at := some tnow }

/-- Embeds `_apply_update_task` (`update.py` lines 22-29). -/
def apply_update_task (tnow : Nat) (upd : UpdateTaskInput) (task : Task) : Task :=
  let task := match upd.new_title with
    | some ti => { task with title := ti }
    | none => task
  let task := match upd.new_type with
    | some ty => { task with type := ty }
    | none => task
  let task := match upd.status with
    | some st => { task with status := st }
    | none => task
  { task with last_updated_at := some tnow }

/-- Mutation through the `id_to_task` dict of `apply_update`: the dict
comprehension keeps, for each id, the last task carrying it, and the patch
mutates that shared object in place.  Functionally: rewrite the last
occurrence with the given id. -/
def apply_to_last_by_id (tasks : List Task) (tid : Nat) (f : Task → Task) : List Task :=
  match tasks with
  | [] => []
  | t :: rest =>
    if rest.any (fun u => u.id == tid) then t :: apply_to_last_by_id rest tid f
    else if t.id == tid then f t :: rest
    else t :: apply_to_last_by_id rest tid f

/-- The `for patch in payload.tasks` loop of `apply_update` (lines 61-65):
each patch must target an existing id (ids never change under patches, so
membership in the evolving list equals membership in the dict built up
front), else the whole update fails. -/
def apply_task_patches (tnow : Nat) :
    List Task → List TaskStatusPatch → Except UpdateError (List Task)
  | tasks, [] => Except.ok tasks
  | tasks, patch :: rest =>
    if tasks.any (fun t => t.id == patch.id) then
      apply_task_patches tnow
        (apply_to_last_by_id tasks patch.id (apply_task_patch tnow patch)) rest
    else Except.error (UpdateError.unknownTaskId patch.id)

/-- The `for upd in payload.update_tasks` loop of `apply_update`
(lines 67-71). -/
def apply_update_tasks (tnow : Nat) :
    List Task → List UpdateTaskInput → Except UpdateError (List Task)
  | tasks, [] => Except.ok tasks
  | tasks, upd :: rest =>
    if tasks.any (fun t => t.id == upd.id) then
      apply_update_tasks tnow
        (apply_to_last_by_id tasks upd.id (apply_update_task tnow upd)) rest
    else Except.error (UpdateError.unknownTaskId upd.id)

/-- Embeds `_next_task_id` (`update.py` lines 32-35). -/
def next_task_id (state : SessionState) : Nat :=
  match state.tasks with
  | [] => 1
  | t :: rest => (rest.foldl (fun m u => max m u.id) t.id) + 1

/-- Embeds `_add_new_task` (`update.py` lines 38-47): a task built from the input,
with `type` defaulting to `feature` (Python `add.type or TaskType.FEATURE`;
enum members are truthy) and the `Task` model default `status=TODO`. -/
def add_new_task (add : AddTaskInput) (new_id : Nat) : Task :=
  { id := new_id
    title := add.title
    type := add.type.getD TaskType.FEATURE
    status := TaskStatus.TODO
    depends_on := add.depends_on
    commit_sha := none
    last_updated_at := none }

/-- The `for add in payload.add_tasks` loop of `apply_update` (lines 73-77):
append each new task, bumping `next_id`. -/
def add_all_tasks : List Task → List AddTaskInput → Nat → List Task
  | tasks, [], _ => tasks
  | tasks, a :: rest, next_id => add_all_tasks (tasks ++ [add_new_task a next_id]) rest (next_id + 1)

/-- Embeds `validate_update_payload` (`update.py` lines 50-54).  Both guards follow
Python truthiness: an absent or empty-string `session` skips the session
check and an absent or empty-string `last_seen_version` skips the version
check. -/
def validate_update_payload (state : SessionState) (payload : UpdatePayload) :
    Except UpdateError Unit :=
  if payload.session ≠ "" ∧ payload.session ≠ state.session then
    Except.error UpdateError.sessionMismatch
  else
    match payload.last_seen_version with
    | some v =>
      if v ≠ "" ∧ v ≠ toString state.version then Except.error UpdateError.versionMismatch
      else Except.ok ()
    | none => Except.ok ()

/-- The infallible tail of `apply_update` (`update.py` lines 73-91), after
both id-checked loops have succeeded with `tasks2`: task additions,
note/step/artifact/final-summary merging, then the version bump and the `now`
recomputation.  (`_next_task_id` runs at line 73, when `state.tasks` holds
the patched tasks — patches never change ids, so the maximum equals the one
over `tasks2`.) -/
def apply_update_tail (tnow : Nat) (state0 : SessionState) (payload : UpdatePayload)
    (tasks2 : List Task) : SessionState :=
  let next_id := next_task_id { state0 with tasks := tasks2 }
  let tasks3 := add_all_tasks tasks2 payload.add_tasks next_id
  let state := { state0 with tasks := tasks3 }
  let state := if payload.context_notes = [] then state
    else { state with context_notes := payload.context_notes }
  let state := if payload.next_steps = [] then state
    else { state with next_steps := payload.next_steps }
  let state := if payload.artifacts = [] then state
    else { state with artifacts := state.artifacts ++ payload.artifacts }
  let state := match payload.final_summary with
    | some fs => { state with final_summary := some fs }
    | none => state
  let state := { state with last_updated_at := tnow, version := state.version + 1 }
  { state with now := state.compute_now }

/-- Embeds `apply_update` (`update.py` lines 57-91): the two fallible id-checked
loops, then the infallible tail. -/
def apply_update (tnow : Nat) (state : SessionState) (payload : UpdatePayload) :
    Except UpdateError SessionState :=
  match apply_task_patches tnow state.tasks payload.tasks with
  | Except.error e => Except.error e
  | Except.ok tasks1 =>
  match apply_update_tasks tnow tasks1 payload.update_tasks with
  | Except.error e => Except.error e
  | Except.ok tasks2 => Except.ok (apply_update_tail tnow state payload tasks2)

/-! ## Structural diff (`diff.py`) -/

/-- Embeds `_task_snapshot` (`diff.py` lines 7-13). -/
structure TaskSnapshot where
  id : Nat
  title : String
  type : TaskType
  status : TaskStatus
deriving DecidableEq, Repr

/-- A `{"before": ..., "after": ...}` pair. -/
structure FieldChange (α : Type) where
  before : α
  after : α
deriving DecidableEq, Repr

/-- One entry of the `updated` list of `_compare_tasks`. -/
structure TaskChanges where
  task : TaskSnapshot
  title : Option (FieldChange String) := none
  type : Option (FieldChange TaskType) := none
  status : Option (FieldChange TaskStatus) := none
deriving DecidableEq, Repr

/-- The task part of the diff. -/
structure TasksDiff where
  added : List TaskSnapshot
  updated : List TaskChanges
  removed : List TaskSnapshot
deriving DecidableEq, Repr

/-- The full `state_diff` result (`diff.py` lines 43-60). -/
structure StateDiff where
  version : FieldChange Nat
  tasks : TasksDiff
  context_notes : Option (FieldChange (List String)) := none
  next_steps : Option (FieldChange (List String)) := none
  final_summary : Option (FieldChange (Option String)) := none
deriving DecidableEq, Repr

/-- Key order of the Python dict `{task.id: task for task in tasks}`: each id
in order of first insertion. -/
def dict_keys (tasks : List Task) : List Nat :=
  (tasks.map (fun t => t.id)).eraseDups

/-- Value lookup in that dict: for each id the last task carrying it. -/
def dict_get (tasks : List Task) (tid : Nat) : Option Task :=
  (tasks.filter (fun t => t.id == tid)).getLast?

def task_snapshot (t : Task) : TaskSnapshot :=
  { id := t.id, title := t.title, type := t.type, status := t.status }

/-- The per-task change record built inside `_compare_tasks`
(`diff.py` lines 25-34); `none` when no field changed. -/
def task_changes (original t : Task) : Option TaskChanges :=
  let titleC := if original.title ≠ t.title
    then some { before := original.title, after := t.title } else none
  let typeC := if original.type ≠ t.type
    then some { before := original.type, after := t.type } else none
  let statusC := if original.status ≠ t.status
    then some { before := original.status, after := t.status } else none
  if titleC = none ∧ typeC = none ∧ statusC = none then none
  else some { task := task_snapshot t, title := titleC, type := typeC, status := statusC }

/-- Embeds `_compare_tasks` (`diff.py` lines 16-40). -/
def compare_tasks (before after : List Task) : TasksDiff :=
  let added := (dict_keys after).filterMap (fun tid =>
    if (dict_keys before).contains tid then none
    else (dict_get after tid).map task_snapshot)
  let updated := (dict_keys after).filterMap (fun tid =>
    if (dict_keys before).contains tid then
      match dict_get after tid, dict_get before tid with
      | some t, some original => task_changes original t
      | _, _ => none
    else none)
  let removed := (dict_keys before).filterMap (fun tid =>
    if (dict_keys after).contains tid then none
    else (dict_get before tid).map task_snapshot)
  { added := added, updated := updated, removed := removed }

/-- Embeds `state_diff` (`diff.py` lines 43-60). -/
def state_diff (before after : SessionState) : StateDiff :=
  { version := { before := before.version, after := after.version }
    tasks := compare_tasks before.tasks after.tasks
    context_notes := if before.context_notes ≠ after.context_notes
      then some { before := before.context_notes, after := after.context_notes } else none
    next_steps := if before.next_steps ≠ after.next_steps
      then some { before := before.next_steps, after := after.next_steps } else none
    final_summary := if before.final_summary ≠ after.final_summary
      then some { before := before.final_summary, after := after.final_summary } else none }

/-! ## The CLI `update` command (`cli.py` lines 156-230) -/

/-- Failures of a CLI command: `UpdateError`s from the pipeline, a
`StateValidationError` from the validator, and the alert command's signal and
missing-flag errors. -/
inductive CliError
  | updateErr (e : UpdateError)
  | stateInvalid (errors : List StateError)
  | signalExists (id : String)
  | signalNotFound (id : String)
  | missingFlag (flag : String)
deriving DecidableEq, Repr

/-- The success output of the update command: `{status: ok, version}` or the
dry-run diff. -/
inductive UpdateResult
  | ok (version : Nat)
  | dryRunDiff (diff : StateDiff)
deriving DecidableEq, Repr

/-- The strict-mode allowlist of `cli.py` lines 191-203.  It names `done`
although `UpdatePayload` has no such field. -/
def STRICT_ALLOWED_FIELDS : List String :=
  ["session", "last_seen_version", "tasks", "add_tasks", "update_tasks",
   "context_notes", "next_steps", "artifacts", "agent", "final_summary", "done"]

/-- Whether the payload carries any of the channels the `no_plan_edit` gate
rejects (`cli.py` line 207). -/
def structural_edit (p : UpdatePayload) : Bool :=
  !p.add_tasks.isEmpty || !p.update_tasks.isEmpty || !p.context_notes.isEmpty ||
    !p.next_steps.isEmpty || !p.artifacts.isEmpty

/-- The `update` command (`cli.py` lines 156-230), from the point where the
payload has been parsed and the session state loaded.  Returns the command
result together with the on-disk state after the call; every error path and
the dry-run path leave the disk untouched because `save_session_state` is
only reached on the non-dry success path.  The deep copy of the dry-run
branch is value semantics here. -/
def updateCommand (tnow : Nat) (disk : SessionState) (raw : RawPayload)
    (dry_run_enabled no_plan_edit_enabled strict_enabled : Bool) :
    Except CliError UpdateResult × SessionState :=
  if strict_enabled && !(raw.keys.filter (fun k => !STRICT_ALLOWED_FIELDS.contains k)).isEmpty then
    (Except.error (CliError.updateErr (UpdateError.unknownFields
      (raw.keys.filter (fun k => !STRICT_ALLOWED_FIELDS.contains k)))), disk)
  else if no_plan_edit_enabled && structural_edit raw.payload then
    (Except.error (CliError.updateErr UpdateError.planEditBlocked), disk)
  else
    match validate_update_payload disk raw.payload with
    | Except.error e => (Except.error (CliError.updateErr e), disk)
    | Except.ok _ =>
      if dry_run_enabled then
        match apply_update tnow disk raw.payload with
        | Except.error e => (Except.error (CliError.updateErr e), disk)
        | Except.ok state_copy =>
          (Except.ok (UpdateResult.dryRunDiff (state_diff disk state_copy)), disk)
      else
        match apply_update tnow disk raw.payload with
        | Except.error e => (Except.error (CliError.updateErr e), disk)
        | Except.ok st =>
          match validate_state st with
          | Except.error errs => (Except.error (CliError.stateInvalid errs), disk)
          | Except.ok _ => (Except.ok (UpdateResult.ok st.version), st)

/-! ## Signal operations (`signals.py`) and the `alert` command
(`cli.py` lines 233-278) -/

/-- Embeds `open_signal` (`signals.py` lines 10-16): reject a duplicate id, append,
bump `last_updated_at`, recompute `now`. -/
def open_signal (tnow : Nat) (state : SessionState) (signal : Signal) :
    Except CliError SessionState :=
  if state.signals.any (fun sg => sg.id == signal.id) then
    Except.error (CliError.signalExists signal.id)
  else
    let state := { state with signals := state.signals ++ [signal] }
    let state := { state with last_updated_at := tnow }
    Except.ok { state with now := state.compute_now }

/-- The `for sig in state.signals` search of `close_signal`: set `open=False`
on the first signal carrying the id. -/
def close_first_by_id : List Signal → String → List Signal
  | [], _ => []
  | sg :: rest, sid =>
    if sg.id == sid then { sg with «open» := false } :: rest
    else sg :: close_first_by_id rest sid

/-- Embeds `close_signal` (`signals.py` lines 19-29): closing an unknown id is an
error; closing preserves the record with `open=False` and recomputes `now`. -/
def close_signal (tnow : Nat) (state : SessionState) (signal_id : String) :
    Except CliError SessionState :=
  if state.signals.any (fun sg => sg.id == signal_id) then
    let state := { state with signals := close_first_by_id state.signals signal_id }
    let state := { state with last_updated_at := tnow }
    Except.ok { state with now := state.compute_now }
  else Except.error (CliError.signalNotFound signal_id)

/-- The per-field flags of the `alert` command. -/
structure AlertArgs where
  id : String
  level : SignalLevel := SignalLevel.BLOCKER
  type : SignalType := SignalType.CI
  kind : Option String := none
  title : Option String := none
  message : Option String := none
  link : Option String := none
  close : Bool := false
deriving DecidableEq, Repr

/-- The `alert` command (`cli.py` lines 233-278), from the point where the
session state has been loaded: open or close the signal under the lock,
validate, then persist.  Returns the persisted state; on any error nothing is
written. -/
def alertCommand (tnow : Nat) (disk : SessionState) (a : AlertArgs) :
    Except CliError SessionState :=
  match (if a.close then close_signal tnow disk a.id
    else
      match a.kind, a.title, a.message with
      | none, _, _ => Except.error (CliError.missingFlag "kind")
      | some _, none, _ => Except.error (CliError.missingFlag "title")
      | some _, some _, none => Except.error (CliError.missingFlag "message")
      | some kind, some title, some message =>
        open_signal tnow disk
          { id := a.id, type := a.type, kind := kind, level := a.level, «open» := true,
            title := title, message := message, link := a.link, extra := [], attempts := 0 }) with
  | Except.error e => Except.error e
  | Except.ok st =>
    match validate_state st with
    | Except.error errs => Except.error (CliError.stateInvalid errs)
    | Except.ok _ => Except.ok st

/-! ## Queue-stall escalation (`lock.py` lines 165-187) -/

def QUEUE_STALL_SIGNAL_ID : String := "queue_stall"

def QUEUE_STALL_THRESHOLD : Nat := 5

/-- The message of the synthetic queue-stall signal. -/
def queue_stall_message (head_agent : Option String) (threshold : Nat) : String :=
  "Agent " ++ head_agent.getD "unknown" ++ " held the lock queue for " ++
    toString threshold ++ " consecutive cycles."

/-- The `queue_head` entry of the stall signal's `extra` mapping. -/
def queue_stall_extra_head (head_agent : Option String) : ExtraVal :=
  match head_agent with
  | some a => ExtraVal.str a
  | none => ExtraVal.null

/-- Embeds `_emit_queue_stall_signal` (`lock.py` lines 165-187): a one-shot
load/modify/save.  Returns the state handed to `save_session_state`, or
`none` when the function returns without saving (an open stall signal already
present, or `open_signal` raising on a closed duplicate).  Note the override:
after `open_signal` has recomputed `now`, the function force-sets
`now = {waiting_on_lock, signal_id: queue_stall}` and saves without further
validation (`session.py` `save_session_state` does not validate). -/
def emit_queue_stall_signal (tnow : Nat) (disk : SessionState)
    (head_agent : Option String) (threshold : Nat) : Option SessionState :=
  if disk.signals.any (fun sg => sg.id == QUEUE_STALL_SIGNAL_ID && sg.«open») then none
  else
    match open_signal tnow disk
      { id := QUEUE_STALL_SIGNAL_ID, type := SignalType.SYSTEM, kind := "queue_stall",
        level := SignalLevel.BLOCKER, «open» := true, title := "Queue stall detected",
        message := queue_stall_message head_agent threshold, link := none,
        extra := [("queue_head", queue_stall_extra_head head_agent),
                  ("threshold", ExtraVal.num threshold)],
        attempts := 0 } with
    | Except.error _ => none
    | Except.ok st =>
      some { st with now :=
        { reason := NowReason.WAITING_ON_LOCK, task_id := none,
          signal_id := some QUEUE_STALL_SIGNAL_ID } }

/-! ## Deadlock detector (`deadlock.py`) -/

/-- Embeds `_compute_hash` serializes the state excluding the top-level
`last_updated_at` and digests it with SHA-256.  The digest is modeled by its
preimage: the state with `last_updated_at` cleared (SHA-256 is treated as
injective; two states collide exactly when their serialized forms agree). -/
def compute_hash (s : SessionState) : SessionState :=
  { s with last_updated_at := 0 }

/-- Embeds `DeadlockTracker` (`deadlock.py` lines 13-18); the fresh tracker's empty
`last_state_hash` string, which no digest equals, is `none`. -/
structure DeadlockTracker where
  last_state_hash : Option SessionState := none
  no_progress_counter : Nat := 0
  queue_head : Option String := none
  queue_stall_counter : Nat := 0
deriving DecidableEq, Repr

/-- Embeds `check_deadlock` (`deadlock.py` lines 58-84): hash-compare against the
tracker, bump or reset the counter, and at the threshold append the
`system/deadlock_suspected` blocker (idempotent on its id) and force
`now = {deadlocked, signal_id: deadlock}`. -/
def check_deadlock (state : SessionState) (tracker : DeadlockTracker) (threshold : Nat) :
    SessionState × DeadlockTracker :=
  let state_hash := compute_hash state
  let tracker :=
    if some state_hash = tracker.last_state_hash then
      { tracker with no_progress_counter := tracker.no_progress_counter + 1 }
    else
      { tracker with last_state_hash := some state_hash, no_progress_counter := 0 }
  let state :=
    if tracker.no_progress_counter ≥ threshold then
      let dsig : Signal :=
        { id := "deadlock", type := SignalType.SYSTEM, kind := "deadlock_suspected",
          level := SignalLevel.BLOCKER, «open» := true,
          title := "Potential deadlock detected",
          message := "Agent called status without making progress",
          link := none, extra := [], attempts := 0 }
      let state := if state.signals.any (fun sg => sg.id == dsig.id) then state
        else { state with signals := state.signals ++ [dsig] }
      { state with now :=
        { reason := NowReason.DEADLOCKED, task_id := none, signal_id := some dsig.id } }
    else state
  (state, tracker)

/-! ## The CLI `status` command (`cli.py` lines 130-154) -/

/-- The state-derived part of the JSON payload the `status` command prints. -/
structure StatusPayload where
  session : String
  now : Now
  tasks : List Task
  signals : List Signal
deriving DecidableEq, Repr

/-- The `status` command (`cli.py` lines 130-154): load the state, validate,
and render the payload.  The function body never reads or writes
`deadlock.json` — `check_deadlock` has no caller anywhere in the CLI — so the
tracker component of the session directory is passed through unchanged.  (The
lock-status and queue views it also renders touch only the lock files, not
the tracker.) -/
def statusCommand (disk : SessionState) (tracker : DeadlockTracker) :
    Except (List StateError) StatusPayload × DeadlockTracker :=
  (match validate_state disk with
   | Except.error errs => Except.error errs
   | Except.ok _ =>
     Except.ok { session := disk.session, now := disk.now,
                 tasks := disk.tasks, signals := disk.signals },
   tracker)

/-! ## Lock and queue manager (`lock.py`) -/

/-- Embeds `LockInfo` (`lock.py` lines 29-47). -/
structure LockInfo where
  held_by : String
  since : Nat
  operation : String
deriving DecidableEq, Repr

/-- Embeds `QueueEntry` (`lock.py` lines 57-79). -/
structure QueueEntry where
  id : String
  agent : String
  operation : String
  requested_at : Nat
deriving DecidableEq, Repr

/-- The lock-related files of one session directory: the `.lock` sentinel,
the `.lock_info` sidecar, and the `.lock_queue/` entries (as loaded, sorted
by `requested_at`). -/
structure LockFs where
  lockExists : Bool
  lockInfo : Option LockInfo
  queue : List QueueEntry
deriving DecidableEq, Repr

/-- Embeds `LockStatus` (`lock.py` lines 51-54). -/
structure LockStatus where
  locked : Bool
  info : Option LockInfo
deriving DecidableEq, Repr

/-- Embeds `get_lock_status` (`lock.py` lines 301-308): `.lock_info` is only read
when the sentinel exists. -/
def get_lock_status (fs : LockFs) : LockStatus :=
  { locked := fs.lockExists
    info := if fs.lockExists then fs.lockInfo else none }

/-- The holder identity carried by the queue-wait timeout of `acquire_lock`
(`lock.py` lines 233-240): `get_lock_status(...).info.held_by`, or
`"unknown"` when there is no lock info. -/
def queue_timeout_holder (fs : LockFs) : String :=
  match (get_lock_status fs).info with
  | some info => info.held_by
  | none => "unknown"

/-- The timeout errors `acquire_lock` can raise. -/
inductive LockError
  | timeoutWaiting (holder : String)
  | timeoutHeld (holder : String)
  | alreadyHeld
deriving DecidableEq, Repr

/-- The `finally` block of `acquire_lock` (`lock.py` lines 278-298): it
unlinks `.lock` and `.lock_info` whenever they exist — the
`lock_acquired_time is not None` guard protects only the release logging, not
the unlinks — and then removes this caller's own queue entry. -/
def acquire_finally (fs : LockFs) (entry_id : String) : LockFs :=
  { lockExists := false
    lockInfo := none
    queue := fs.queue.filter (fun en => en.id ≠ entry_id) }

/-- The queue-wait timeout exit of `acquire_lock` (`lock.py` lines 229-241
followed by the `finally` block): the waiter whose entry is not at the head
raises `TimeoutError` carrying the current holder identity, and the `finally`
cleanup runs. -/
def acquire_lock_timeout (fs : LockFs) (entry_id : String) : LockError × LockFs :=
  (LockError.timeoutWaiting (queue_timeout_holder fs), acquire_finally fs entry_id)

/-! ## Two racing updaters (`cli.py` lines 156-230 for two processes)

`cli.py` runs `_load_session` at line 181 and only enters `acquire_lock` at
line 216, so each process applies its update to the snapshot it loaded
*before* the lock.  The FIFO lock serializes the two critical sections; the
two loads may both happen first. -/

/-- One process's critical section (`cli.py` lines 216-219): apply the update
to the state that process loaded, validate, and persist the result. -/
def update_critical_section (tnow : Nat) (loaded : SessionState) (p : UpdatePayload) :
    Except CliError SessionState :=
  match apply_update tnow loaded p with
  | Except.error e => Except.error (CliError.updateErr e)
  | Except.ok st =>
    match validate_state st with
    | Except.error errs => Except.error (CliError.stateInvalid errs)
    | Except.ok _ => Except.ok st

/-- The interleaving `load₁; load₂; lock₁(apply; save); lock₂(apply; save)`
of two update processes on the same session: both load the same initial disk
state, then their critical sections run back to back in queue order.
Returns the version each process reports and the final disk state. -/
def racing_updates (tnow : Nat) (disk0 : SessionState) (p1 p2 : UpdatePayload) :
    Except CliError (Nat × Nat × SessionState) :=
  let loaded1 := disk0
  let loaded2 := disk0
  match update_critical_section tnow loaded1 p1 with
  | Except.error e => Except.error e
  | Except.ok disk1 =>
    match update_critical_section tnow loaded2 p2 with
    | Except.error e => Except.error e
    | Except.ok disk2 => Except.ok (disk1.version, disk2.version, disk2)

/-! ## Concrete session fixtures used by witnesses and counterexamples -/

/-- A freshly created session (`session.py` `_initial_state`): empty task and
signal lists, `now = {idle}`, `version = 1`, `done = false`. -/
def baseState : SessionState :=
  { session := "demo-20260101T000000Z-ab12"
    name := "demo"
    title := "Demo"
    purpose := ""
    created_at := 0
    last_updated_at := 0
    project_root := "/repo"
    prompts := { set := "core-v1" }
    environment := { os := "unknown" }
    now := { reason := NowReason.IDLE } }

/-- The fixture `baseState` at version 5, for the optimistic-concurrency scenarios. -/
def state5 : SessionState := { baseState with version := 5 }

/-- The fixture `baseState` with one `TODO` feature task. -/
def taskA : Task := { id := 1, title := "a", type := TaskType.FEATURE }

def stateWithTask : SessionState :=
  { baseState with tasks := [taskA]
                   now := { reason := NowReason.TASK, task_id := some 1 } }

/-- A payload that adds one task. -/
def updateDemoPayload : UpdatePayload :=
  { session := baseState.session, add_tasks := [{ title := "a" }] }

def updateDemoRaw : RawPayload :=
  { payload := updateDemoPayload, keys := ["session", "add_tasks"] }

/-- The state `updateCommand` persists for `updateDemoRaw` on `baseState`. -/
def updateDemoResult : SessionState :=
  (updateCommand 3 baseState updateDemoRaw false false false).2

/-- The state `apply_update` yields for `updateDemoPayload` on `baseState`. -/
def applyDemoResult : SessionState :=
  match apply_update 3 baseState updateDemoPayload with
  | Except.ok st => st
  | Except.error _ => baseState

/-- A payload whose `last_seen_version` is the empty string while the state
is at version 5. -/
def emptyVersionRaw : RawPayload :=
  { payload := { session := state5.session, last_seen_version := some "" }
    keys := ["session", "last_seen_version"] }

/-- A status-channel patch that retitles task 1, for the `no_plan_edit`
scenario. -/
def retitleRaw : RawPayload :=
  { payload := { session := stateWithTask.session
                 tasks := [{ id := 1, new_title := some "b" }] }
    keys := ["session", "tasks"] }

/-- A raw payload carrying a `done: true` key: pydantic drops the key (the
parsed payload has no such field) while the CLI strict gate sees it among the
raw keys. -/
def doneRaw : RawPayload :=
  { payload := { session := baseState.session }, keys := ["session", "done"] }

/-- The state the queue-stall emission persists on `baseState`. -/
def queueStallDemo : SessionState :=
  (emit_queue_stall_signal 7 baseState (some "agent-a") 5).getD baseState

/-- A tracker whose stored hash matches `baseState`, i.e. the previous
`status` call saw the identical state. -/
def trackerSynced : DeadlockTracker := { last_state_hash := some (compute_hash baseState) }

/-- Lock fixtures: a held lock with a waiter and one more queued agent. -/
def holderInfo : LockInfo := { held_by := "pid:1", since := 0, operation := "update" }

def holderEntry : QueueEntry :=
  { id := "e-holder", agent := "pid:1", operation := "update", requested_at := 0 }

def waiterEntry : QueueEntry :=
  { id := "e-waiter", agent := "pid:2", operation := "update", requested_at := 1 }

def otherEntry : QueueEntry :=
  { id := "e-other", agent := "pid:3", operation := "update", requested_at := 2 }

def heldLockFs : LockFs :=
  { lockExists := true, lockInfo := some holderInfo
    queue := [holderEntry, waiterEntry, otherEntry] }

/-- Payloads for the two racing updaters. -/
def racePayloadA : UpdatePayload := { session := state5.session, context_notes := ["from A"] }

def racePayloadB : UpdatePayload := { session := state5.session, next_steps := ["from B"] }

/-- A payload carrying the stale version token `"4"` against version 5. -/
def version4Raw : RawPayload :=
  { payload := { session := state5.session, last_seen_version := some "4" }
    keys := ["session", "last_seen_version"] }

/-! ## Helper lemmas -/

/-- The function `List.find?` returns the head of the filtered list. -/
theorem find?_eq_filter_head? {α : Type} (p : α → Bool) (l : List α) :
    l.find? p = (l.filter p).head? := by
  induction l with
  | nil => rfl
  | cons a l ih =>
    by_cases h : p a
    · rw [List.find?_cons_of_pos _ h, List.filter_cons_of_pos h, List.head?_cons]
    · rw [List.find?_cons_of_neg _ h, List.filter_cons_of_neg h, ih]

theorem task_done_eq_spec (s : SessionState) (d : Nat) :
    s.task_done d =
      (match (s.tasks.filter (fun u => u.id == d)).head? with
       | some target => target.status == TaskStatus.DONE
       | none => false) := by
  unfold SessionState.task_done
  rw [find?_eq_filter_head?]

/-- Everything `apply_update` returns went through `apply_update_tail`. -/
theorem apply_update_ok_elim (tnow : Nat) (s : SessionState) (p : UpdatePayload)
    (st : SessionState) (h : apply_update tnow s p = Except.ok st) :
    ∃ tasks1 tasks2,
      apply_task_patches tnow s.tasks p.tasks = Except.ok tasks1 ∧
      apply_update_tasks tnow tasks1 p.update_tasks = Except.ok tasks2 ∧
      st = apply_update_tail tnow s p tasks2 := by
  unfold apply_update at h
  split at h
  · exact absurd h (by simp)
  case _ tasks1 h1 =>
    split at h
    · exact absurd h (by simp)
    case _ tasks2 h2 =>
      refine ⟨tasks1, tasks2, h1, h2, ?_⟩
      simpa using h.symm

/-- The tail never touches the `done` flag. -/
theorem apply_update_tail_done (tnow : Nat) (s : SessionState) (p : UpdatePayload)
    (tasks2 : List Task) : (apply_update_tail tnow s p tasks2).done = s.done := by
  unfold apply_update_tail
  split <;> split <;> split <;> split <;> rfl

/-- The tail stores a freshly recomputed `now`. -/
theorem apply_update_tail_now (tnow : Nat) (s : SessionState) (p : UpdatePayload)
    (tasks2 : List Task) :
    (apply_update_tail tnow s p tasks2).now =
      (apply_update_tail tnow s p tasks2).compute_now := rfl

/-- The tail's task list is the additions appended to `tasks2`. -/
theorem apply_update_tail_tasks (tnow : Nat) (s : SessionState) (p : UpdatePayload)
    (tasks2 : List Task) :
    (apply_update_tail tnow s p tasks2).tasks =
      add_all_tasks tasks2 p.add_tasks (next_task_id { s with tasks := tasks2 }) := by
  unfold apply_update_tail
  split <;> split <;> split <;> split <;> rfl

/-- A successful `apply_update` leaves `now` in sync with `compute_now`. -/
theorem apply_update_now (tnow : Nat) (s : SessionState) (p : UpdatePayload)
    (st : SessionState) (h : apply_update tnow s p = Except.ok st) :
    st.now = st.compute_now := by
  obtain ⟨t1, t2, _, _, hst⟩ := apply_update_ok_elim tnow s p st h
  rw [hst]
  exact apply_update_tail_now tnow s p t2

/-- A successful `apply_update` never changes the `done` flag. -/
theorem apply_update_done (tnow : Nat) (s : SessionState) (p : UpdatePayload)
    (st : SessionState) (h : apply_update tnow s p = Except.ok st) :
    st.done = s.done := by
  obtain ⟨t1, t2, _, _, hst⟩ := apply_update_ok_elim tnow s p st h
  rw [hst]
  exact apply_update_tail_done tnow s p t2

/-! ## Claim theorems -/

/-- C1 — For every `SessionState`, `compute_now` returns `ci_blocker` with
the first open blocker signal in insertion order if one exists; else `task`
with the first `IN_PROGRESS` task in list order; else `task` with the first
`TODO` task all of whose `depends_on` targets have status `DONE`; else
`completed` when the task list is non-empty and every status is in
{DONE, OUT_OF_SCOPE, SKIPPED}; else `idle`. -/
theorem compute_now_matches_claim (s : SessionState) :
    s.compute_now = compute_now_spec s := by
  unfold SessionState.compute_now compute_now_spec
  rw [find?_eq_filter_head?, find?_eq_filter_head?, find?_eq_filter_head?]
  have hdep :
      (fun (t : Task) => t.status == TaskStatus.TODO &&
        t.depends_on.all (fun d => s.task_done d)) =
      (fun (t : Task) => t.status == TaskStatus.TODO && t.depends_on.all (fun d =>
        match (s.tasks.filter (fun u => u.id == d)).head? with
        | some target => target.status == TaskStatus.DONE
        | none => false)) := by
    funext t
    congr 1
    exact congrArg _ (funext fun d => task_done_eq_spec s d)
  rw [hdep]

/-- A successful non-dry-run `updateCommand` persists exactly the
`apply_update` result and reports its version. -/
theorem updateCommand_ok_elim (tnow : Nat) (disk : SessionState) (raw : RawPayload)
    (npe strict : Bool) (r : UpdateResult) (disk' : SessionState)
    (h : updateCommand tnow disk raw false npe strict = (Except.ok r, disk')) :
    apply_update tnow disk raw.payload = Except.ok disk' ∧
      validate_state disk' = Except.ok () ∧ r = UpdateResult.ok disk'.version := by
  unfold updateCommand at h
  by_cases h1 :
      (strict && !(List.filter (fun k => !STRICT_ALLOWED_FIELDS.contains k) raw.keys).isEmpty) = true
  · rw [if_pos h1] at h
    exact absurd h (by simp)
  · rw [if_neg h1] at h
    by_cases h2 : (npe && structural_edit raw.payload) = true
    · rw [if_pos h2] at h
      exact absurd h (by simp)
    · rw [if_neg h2] at h
      rcases hval : validate_update_payload disk raw.payload with e | u
      · simp only [hval] at h
        exact absurd h (by simp)
      · simp only [hval, Bool.false_eq_true, if_false] at h
        rcases happ : apply_update tnow disk raw.payload with e | st
        · simp only [happ] at h
          exact absurd h (by simp)
        · simp only [happ] at h
          rcases hvst : validate_state st with errs | u2
          · simp only [hvst] at h
            exact absurd h (by simp)
          · simp only [hvst, Prod.mk.injEq, Except.ok.injEq] at h
            obtain ⟨hr, hdisk⟩ := h
            subst hdisk
            exact ⟨rfl, hvst, hr.symm⟩

/-- A successful `open_signal` stores a freshly recomputed `now`. -/
theorem open_signal_now (tnow : Nat) (s : SessionState) (sg : Signal)
    (st : SessionState) (h : open_signal tnow s sg = Except.ok st) :
    st.now = st.compute_now := by
  unfold open_signal at h
  split at h
  · simp at h
  · simp only [Except.ok.injEq] at h
    subst h
    rfl

/-- A successful `close_signal` stores a freshly recomputed `now`. -/
theorem close_signal_now (tnow : Nat) (s : SessionState) (sid : String)
    (st : SessionState) (h : close_signal tnow s sid = Except.ok st) :
    st.now = st.compute_now := by
  unfold close_signal at h
  split at h
  · simp only [Except.ok.injEq] at h
    subst h
    rfl
  · simp at h

/-- C2 (amended) — After a successful (non-dry-run) `update` and after a
successful `alert` (opening or closing a signal), the persisted state
satisfies `state.now = compute_now(state)`.  The queue-stall emission is the
exception the claim missed: whenever it saves, it persists the override
`now = {waiting_on_lock, signal_id: queue_stall}` (which differs from
`compute_now` — see the counterexample). -/
theorem now_invariant_on_persist :
    (∀ (tnow : Nat) (disk : SessionState) (raw : RawPayload) (npe strict : Bool)
       (r : UpdateResult) (disk' : SessionState),
       updateCommand tnow disk raw false npe strict = (Except.ok r, disk') →
       disk'.now = disk'.compute_now) ∧
    (∀ (tnow : Nat) (disk : SessionState) (a : AlertArgs) (st : SessionState),
       alertCommand tnow disk a = Except.ok st → st.now = st.compute_now) ∧
    (∀ (tnow : Nat) (disk : SessionState) (head : Option String) (thr : Nat)
       (st : SessionState),
       emit_queue_stall_signal tnow disk head thr = some st →
       st.now.reason = NowReason.WAITING_ON_LOCK ∧
         st.now.signal_id = some QUEUE_STALL_SIGNAL_ID) := by
  refine ⟨?_, ?_, ?_⟩
  · intro tnow disk raw npe strict r disk' h
    obtain ⟨happly, _, _⟩ := updateCommand_ok_elim tnow disk raw npe strict r disk' h
    exact apply_update_now tnow disk raw.payload disk' happly
  · intro tnow disk a st h
    unfold alertCommand at h
    split at h
    · simp at h
    case _ st0 hop =>
      split at h
      · simp at h
      · simp only [Except.ok.injEq] at h
        subst h
        split at hop
        · exact close_signal_now tnow disk a.id st0 hop
        · split at hop
          · simp at hop
          · simp at hop
          · simp at hop
          · exact open_signal_now tnow disk _ st0 hop
  · intro tnow disk head thr st h
    unfold emit_queue_stall_signal at h
    split at h
    · simp at h
    · split at h
      · simp at h
      · simp only [Option.some.injEq] at h
        subst h
        exact ⟨rfl, rfl⟩

/-- C2 witness — the demo update run persists a state whose stored `now`
agrees with `compute_now`. -/
theorem now_invariant_on_persist_witness :
    updateDemoResult.now = updateDemoResult.compute_now :=
  now_invariant_on_persist.1 3 baseState updateDemoRaw false false
    (UpdateResult.ok 2) updateDemoResult rfl

/-- C2 counterexample — the queue-stall emission on a fresh idle session
saves a state whose stored `now` (`waiting_on_lock`) disagrees with
`compute_now` (which yields `ci_blocker` for the open `queue_stall` blocker
it just appended), refuting the claim for the queue-stall persist path. -/
theorem queue_stall_persists_desynced_now :
    emit_queue_stall_signal 7 baseState (some "agent-a") 5 = some queueStallDemo ∧
      queueStallDemo.now ≠ queueStallDemo.compute_now := by
  exact ⟨rfl, by decide⟩

/-- Version-guard analysis of `validate_update_payload`: with a non-empty
token differing from `str(version)`, validation fails; when the session check
passes, the failure is specifically the version mismatch. -/
theorem validate_update_payload_version_guard (disk : SessionState) (p : UpdatePayload)
    (v : String) (hv : p.last_seen_version = some v) (hne : v ≠ "")
    (hd : v ≠ toString disk.version) :
    ((p.session = "" ∨ p.session = disk.session) →
      validate_update_payload disk p = Except.error UpdateError.versionMismatch) ∧
    ∃ e, validate_update_payload disk p = Except.error e := by
  unfold validate_update_payload
  by_cases hs : p.session ≠ "" ∧ p.session ≠ disk.session
  · rw [if_pos hs]
    refine ⟨?_, ⟨_, rfl⟩⟩
    intro hsess
    rcases hsess with h | h
    · exact absurd h hs.1
    · exact absurd h hs.2
  · rw [if_neg hs]
    simp only [hv]
    rw [if_pos ⟨hne, hd⟩]
    exact ⟨fun _ => rfl, ⟨_, rfl⟩⟩

/-- C3 (amended) — A payload whose `last_seen_version` is a *non-empty* value
differing from the state's version rendered as a string makes the update call
fail without persisting anything (the disk state is returned unchanged), and
— when the strict gate, the no-plan-edit gate and the session check do not
fire first — the error is specifically the version mismatch.  (The empty
string is treated as an absent token by Python truthiness; see the
counterexample.) -/
theorem nonempty_version_mismatch_rejected
    (tnow : Nat) (disk : SessionState) (raw : RawPayload) (dr npe strict : Bool)
    (v : String) (hv : raw.payload.last_seen_version = some v) (hne : v ≠ "")
    (hd : v ≠ toString disk.version) :
    ((updateCommand tnow disk raw dr npe strict).2 = disk ∧
      ∀ r, (updateCommand tnow disk raw dr npe strict).1 ≠ Except.ok r) ∧
    ((strict = false ∨ raw.keys.filter (fun k => !STRICT_ALLOWED_FIELDS.contains k) = []) →
      (npe = false ∨ structural_edit raw.payload = false) →
      (raw.payload.session = "" ∨ raw.payload.session = disk.session) →
      (updateCommand tnow disk raw dr npe strict).1 =
        Except.error (CliError.updateErr UpdateError.versionMismatch)) := by
  obtain ⟨hmis, e0, he0⟩ :=
    validate_update_payload_version_guard disk raw.payload v hv hne hd
  constructor
  · have hcmd : ∃ e', updateCommand tnow disk raw dr npe strict =
        (Except.error e', disk) := by
      unfold updateCommand
      by_cases h1 : (strict &&
          !(List.filter (fun k => !STRICT_ALLOWED_FIELDS.contains k) raw.keys).isEmpty) = true
      · rw [if_pos h1]
        exact ⟨_, rfl⟩
      · rw [if_neg h1]
        by_cases h2 : (npe && structural_edit raw.payload) = true
        · rw [if_pos h2]
          exact ⟨_, rfl⟩
        · rw [if_neg h2]
          simp only [he0]
          exact ⟨_, rfl⟩
    obtain ⟨e', he'⟩ := hcmd
    refine ⟨by rw [he'], ?_⟩
    intro r hr
    rw [he'] at hr
    exact absurd hr (by simp)
  · intro hstrict hnpe hsess
    have h1 : (strict &&
        !(List.filter (fun k => !STRICT_ALLOWED_FIELDS.contains k) raw.keys).isEmpty) = false := by
      rcases hstrict with h | h
      · rw [h]
        rfl
      · rw [h]
        simp
    have h2 : (npe && structural_edit raw.payload) = false := by
      rcases hnpe with h | h
      · rw [h]
        rfl
      · rw [h]
        simp
    unfold updateCommand
    rw [if_neg (by rw [h1]; exact Bool.false_ne_true),
        if_neg (by rw [h2]; exact Bool.false_ne_true)]
    simp only [hmis hsess]

/-- C3 witness — the stale token `"4"` against version 5 is rejected with the
version-mismatch error. -/
theorem nonempty_version_mismatch_rejected_witness :
    (updateCommand 0 state5 version4Raw false false false).1 =
      Except.error (CliError.updateErr UpdateError.versionMismatch) :=
  (nonempty_version_mismatch_rejected 0 state5 version4Raw false false false "4" rfl
      (by decide) (by decide)).2 (Or.inl rfl) (Or.inl rfl) (Or.inr rfl)

/-- C3 counterexample — the claim as stated is false for the empty string:
`last_seen_version = ""` differs from `"5"` (the version rendered as a
string), yet the call succeeds, persists, and bumps the version to 6, because
`validate_update_payload` guards the comparison with Python truthiness. -/
theorem empty_version_token_accepted :
    (updateCommand 0 state5 emptyVersionRaw false false false).1 =
      Except.ok (UpdateResult.ok 6) ∧
    (updateCommand 0 state5 emptyVersionRaw false false false).2.version = 6 ∧
    ("" : String) ≠ toString state5.version := by
  exact ⟨rfl, rfl, by decide⟩

/-- C4 (amended) — Under `no_plan_edit`, every payload carrying any of
`add_tasks`, `update_tasks`, `context_notes`, `next_steps`, `artifacts` is
rejected with `planEditBlocked` and has no effect on the state (provided the
strict gate, which runs first, does not fire); a payload carrying none of
those channels is processed exactly as it would be without `no_plan_edit` —
including `tasks` patches that retitle via `new_title` (see the
counterexample). -/
theorem no_plan_edit_blocks_structural_channels
    (tnow : Nat) (disk : SessionState) (raw : RawPayload) (dr strict : Bool) :
    (structural_edit raw.payload = true →
      (strict = false ∨ raw.keys.filter (fun k => !STRICT_ALLOWED_FIELDS.contains k) = []) →
      updateCommand tnow disk raw dr true strict =
        (Except.error (CliError.updateErr UpdateError.planEditBlocked), disk)) ∧
    (structural_edit raw.payload = false →
      updateCommand tnow disk raw dr true strict =
        updateCommand tnow disk raw dr false strict) := by
  constructor
  · intro hs hstrict
    have h1 : (strict &&
        !(List.filter (fun k => !STRICT_ALLOWED_FIELDS.contains k) raw.keys).isEmpty) = false := by
      rcases hstrict with h | h
      · rw [h]
        rfl
      · rw [h]
        simp
    unfold updateCommand
    rw [if_neg (by rw [h1]; exact Bool.false_ne_true), if_pos (by rw [hs]; rfl)]
  · intro hs
    unfold updateCommand
    rw [hs]
    rfl

/-- C4 witness — a payload carrying `add_tasks` is rejected unchanged under
`no_plan_edit`. -/
theorem no_plan_edit_blocks_structural_channels_witness :
    updateCommand 3 baseState updateDemoRaw false true false =
      (Except.error (CliError.updateErr UpdateError.planEditBlocked), baseState) :=
  (no_plan_edit_blocks_structural_channels 3 baseState updateDemoRaw false false).1 rfl
    (Or.inl rfl)

/-- C4 counterexample — under `no_plan_edit` a payload using only the `tasks`
status channel but setting `new_title` is accepted and retitles task 1 from
`"a"` to `"b"`, refuting "every payload whose effect would retitle a task is
rejected". -/
theorem retitle_accepted_under_no_plan_edit :
    (updateCommand 0 stateWithTask retitleRaw false true false).1 =
      Except.ok (UpdateResult.ok 2) ∧
    ((updateCommand 0 stateWithTask retitleRaw false true false).2.tasks.map
      (fun t => t.title)) = ["b"] ∧
    taskA.title = "a" := ⟨rfl, rfl, rfl⟩

/-- C5 — With `dry_run` enabled the on-disk state after the call is the state
before the call (nothing is persisted), and whatever the call outputs on
success is the structural diff between the loaded state and the update
applied to a (deep) copy of it. -/
theorem dry_run_disk_unchanged (tnow : Nat) (disk : SessionState) (raw : RawPayload)
    (npe strict : Bool) :
    (updateCommand tnow disk raw true npe strict).2 = disk ∧
    (∀ r, (updateCommand tnow disk raw true npe strict).1 = Except.ok r →
      ∃ st', apply_update tnow disk raw.payload = Except.ok st' ∧
        r = UpdateResult.dryRunDiff (state_diff disk st')) := by
  unfold updateCommand
  by_cases h1 : (strict &&
      !(List.filter (fun k => !STRICT_ALLOWED_FIELDS.contains k) raw.keys).isEmpty) = true
  · rw [if_pos h1]
    exact ⟨rfl, fun r hr => absurd hr (by simp)⟩
  · rw [if_neg h1]
    by_cases h2 : (npe && structural_edit raw.payload) = true
    · rw [if_pos h2]
      exact ⟨rfl, fun r hr => absurd hr (by simp)⟩
    · rw [if_neg h2]
      rcases hval : validate_update_payload disk raw.payload with e | u
      · exact ⟨rfl, fun r hr => absurd hr (by simp)⟩
      · rcases happ : apply_update tnow disk raw.payload with e | st
        · exact ⟨rfl, fun r hr => absurd hr (by simp)⟩
        · refine ⟨rfl, ?_⟩
          intro r hr
          have hr' : UpdateResult.dryRunDiff (state_diff disk st) = r := by
            simpa using hr
          exact ⟨st, rfl, hr'.symm⟩

/-- C5 witness — the demo dry run leaves the disk untouched and emits the
diff of applying the payload to a copy. -/
theorem dry_run_disk_unchanged_witness :
    ∃ st', apply_update 3 baseState updateDemoPayload = Except.ok st' ∧
      UpdateResult.dryRunDiff (state_diff baseState applyDemoResult) =
        UpdateResult.dryRunDiff (state_diff baseState st') :=
  (dry_run_disk_unchanged 3 baseState updateDemoRaw false false).2
    (UpdateResult.dryRunDiff (state_diff baseState applyDemoResult)) rfl

/-- C6 — The `status` command never reads or writes the deadlock tracker:
for every state and tracker it returns the tracker unchanged, so a repeat
`status` call on an unchanged state leaves `no_progress_counter` at 0 instead
of incrementing it.  The detector itself, `check_deadlock`, would increment
the counter by exactly 1 on the unchanged hash — the wiring from `status` to
it is what is missing. -/
theorem status_never_ticks_deadlock_tracker :
    (∀ (disk : SessionState) (tracker : DeadlockTracker),
      (statusCommand disk tracker).2 = tracker) ∧
    (statusCommand baseState trackerSynced).2.no_progress_counter = 0 ∧
    (check_deadlock baseState trackerSynced 10).2.no_progress_counter =
      trackerSynced.no_progress_counter + 1 := by
  exact ⟨fun disk tracker => rfl, rfl, by decide⟩

/-- C7 — When a waiter times out in `acquire_lock`'s queue-wait loop while
`pid:1` holds the lock, the raised error does carry the holder identity and
only the waiter's own queue entry disappears from the queue — but the
`finally` block also unlinks the holder's `.lock` sentinel and `.lock_info`
file, which the claim says are left in place. -/
theorem waiter_timeout_destroys_holder_lock :
    acquire_lock_timeout heldLockFs "e-waiter" =
      (LockError.timeoutWaiting "pid:1",
        { lockExists := false, lockInfo := none, queue := [holderEntry, otherEntry] }) ∧
    heldLockFs.lockExists = true ∧ heldLockFs.lockInfo = some holderInfo := by
  exact ⟨by decide, rfl, rfl⟩

/-- C8 — No successful update ever marks the session done: `apply_update`
preserves the `done` flag for every state and payload, and the concrete
update whose raw JSON carries `done: true` (accepted even under `strict`,
whose allowlist names `done`) succeeds yet persists `done = false`, because
`UpdatePayload` declares no `done` field and pydantic drops the key. -/
theorem update_ignores_done_field :
    (∀ (tnow : Nat) (s : SessionState) (p : UpdatePayload) (st : SessionState),
      apply_update tnow s p = Except.ok st → st.done = s.done) ∧
    (updateCommand 0 baseState doneRaw false false true).1 = Except.ok (UpdateResult.ok 2) ∧
    (updateCommand 0 baseState doneRaw false false true).2.done = false := by
  exact ⟨fun tnow s p st h => apply_update_done tnow s p st h, rfl, rfl⟩

/-- C8 witness — the demo update keeps `done` at its prior value. -/
theorem update_ignores_done_field_witness :
    applyDemoResult.done = baseState.done :=
  update_ignores_done_field.1 3 baseState updateDemoPayload applyDemoResult rfl

/-- C9 — The interleaving in which both update processes run `_load_session`
before either enters `acquire_lock` makes both critical sections succeed from
the same version-5 snapshot: both report version 6 and the second overwrites
the first, refuting `v_i < v_j` for completion order. -/
theorem racing_updates_collide_on_version :
    racing_updates 0 state5 racePayloadA racePayloadB =
      Except.ok (6, 6, { state5 with version := 6, next_steps := ["from B"] }) := rfl

/-- The loop `add_all_tasks` only appends, so a non-empty prefix keeps its head. -/
theorem add_all_tasks_head? (adds : List AddTaskInput) :
    ∀ (tasks : List Task) (nid : Nat), tasks ≠ [] →
      (add_all_tasks tasks adds nid).head? = tasks.head? := by
  induction adds with
  | nil =>
    intro tasks nid _
    rfl
  | cons a rest ih =>
    intro tasks nid h
    show (add_all_tasks (tasks ++ [add_new_task a nid]) rest (nid + 1)).head? = tasks.head?
    rw [ih (tasks ++ [add_new_task a nid]) (nid + 1) (by simp)]
    cases tasks with
    | nil => exact absurd rfl h
    | cons t ts => simp

/-- C10 — Every task created through `add_tasks` starts with `status = TODO`;
an omitted `type` defaults to `feature`; and on an empty task list the first
assigned id is 1 (the first added task of a successful update on a task-less
state is exactly `add_new_task` of the first input at id 1). -/
theorem add_tasks_defaults :
    (∀ (a : AddTaskInput) (n : Nat), (add_new_task a n).status = TaskStatus.TODO) ∧
    (∀ (a : AddTaskInput) (n : Nat), a.type = none →
      (add_new_task a n).type = TaskType.FEATURE) ∧
    (∀ (tnow : Nat) (s : SessionState) (p : UpdatePayload) (st : SessionState)
        (a : AddTaskInput) (rest : List AddTaskInput),
      apply_update tnow s p = Except.ok st → s.tasks = [] → p.add_tasks = a :: rest →
      st.tasks.head? = some (add_new_task a 1)) := by
  refine ⟨fun a n => rfl, ?_, ?_⟩
  · intro a n h
    simp [add_new_task, h]
  · intro tnow s p st a rest h hempty hadds
    obtain ⟨t1, t2, hp, hu, hst⟩ := apply_update_ok_elim tnow s p st h
    rw [hempty] at hp
    have ht1 : t1 = [] := by
      cases hpt : p.tasks with
      | nil =>
        rw [hpt] at hp
        simp only [apply_task_patches, Except.ok.injEq] at hp
        exact hp.symm
      | cons x xs =>
        rw [hpt] at hp
        simp [apply_task_patches] at hp
    rw [ht1] at hu
    have ht2 : t2 = [] := by
      cases hut : p.update_tasks with
      | nil =>
        rw [hut] at hu
        simp only [apply_update_tasks, Except.ok.injEq] at hu
        exact hu.symm
      | cons x xs =>
        rw [hut] at hu
        simp [apply_update_tasks] at hu
    rw [hst, ht2, apply_update_tail_tasks, hadds]
    have hnid : next_task_id { s with tasks := ([] : List Task) } = 1 := rfl
    rw [hnid]
    show (add_all_tasks ([] ++ [add_new_task a 1]) rest 2).head? = some (add_new_task a 1)
    rw [add_all_tasks_head? rest ([] ++ [add_new_task a 1]) 2 (by simp)]
    rfl

/-- C10 witness — the demo add on an empty task list creates task 1 with
defaults. -/
theorem add_tasks_defaults_witness :
    applyDemoResult.tasks.head? = some (add_new_task { title := "a" } 1) :=
  add_tasks_defaults.2.2 3 baseState updateDemoPayload applyDemoResult
    { title := "a" } [] rfl rfl rfl

end Planloop
